import Mathlib

/-!
Shallow embedding of `detection-ml-wksp/sec405-ipinsights.ipynb`.

The notebook is a linear script: configure an S3 bucket name (cell-3),
probe the bucket with `head_bucket` inside a try/except (cell-5), build a
SageMaker estimator with six string hyperparameters and call `fit`
(cells 7-8), `deploy` an endpoint (cell-11), configure the predictor's
CSV serializer / JSON deserializer (cell-14), and run `predictor.predict`
on two CSV objects loaded with `pd.read_csv` (cells 16 and 18).

External collaborators (the S3 service, the SageMaker training/serving
services, botocore parameter validation, the SDK serializers, pandas
CSV parsing) are modelled as explicit Lean functions; each such model is
documented at its definition.  Remote calls are recorded in an `Effect`
trace; an uncaught exception aborts the sequential run, a caught-and-
printed one does not — exactly as in the Python source.
-/

namespace SEC405

/-- Terminal states of a SageMaker training job (spec §4.2 state machine;
the transient `Submitted`/`InProgress` states are not terminal and are
not observable by the blocking `fit` call, which waits for a terminal
state). -/
inductive JobState where
  | Completed
  | Failed
  | Stopped
deriving DecidableEq, Repr

/-- Exceptions that cross the notebook's cell boundaries, mirroring the
Python exception types that cell-5's `try/except` distinguishes:
`botocore.exceptions.ParamValidationError`, `botocore.exceptions.ClientError`
(carrying `e.response['Error']['Code']` as a string), the SDK error raised
by a blocking `fit` whose job ends `Failed`/`Stopped` (it surfaces the job
name), and any other exception. -/
inductive Err where
  | paramValidation
  | clientError (code : String)
  | trainingFailed (jobName : String) (state : JobState)
  | other (msg : String)
deriving DecidableEq, Repr

/-- An S3 object: bucket, key, and the lines of its (CSV) body. -/
structure S3Object where
  bucket : String
  key : String
  lines : List String
deriving DecidableEq, Repr

/-- The state of the external S3 service: which buckets exist, which
buckets the caller's credentials are denied access to, and the stored
objects. -/
structure S3State where
  buckets : List String
  denied : List String
  objects : List S3Object
deriving DecidableEq, Repr

/-- The training request assembled by `Estimator.fit` (spec §3
TrainingRequest): image reference, role, compute sizing, output URI,
the string→string hyperparameter mapping, and the input channel map
(channel name ↦ (S3 URI, distribution mode, content type)). -/
structure TrainingRequest where
  image : String
  role : String
  train_instance_count : Nat
  train_instance_type : String
  output_path : String
  hyperparameters : List (String × String)
  input_data : List (String × String × String × String)
deriving DecidableEq, Repr

/-- Observable remote calls and console output of the notebook. -/
inductive Effect where
  | s3HeadBucket (bucket : String)
  | s3Read (bucket key : String)
  | s3Write (bucket key : String)
  | createTrainingJob (req : TrainingRequest)
  | createEndpoint (name : String)
  | invokeEndpoint (endpoint contentType accept body : String)
  | printLine (line : String)
deriving DecidableEq, Repr

/-- Holds on the storage-probe and console-output effects, the only two
things cell-5 does. -/
def isProbeOrPrint : Effect → Bool
  | .s3HeadBucket _ => true
  | .printLine _ => true
  | _ => false

/-- Holds exactly on calls to the training-submission interface. -/
def isTrainingCall : Effect → Bool
  | .createTrainingJob _ => true
  | _ => false

/-- Holds exactly on calls to the deployment interface. -/
def isDeployCall : Effect → Bool
  | .createEndpoint _ => true
  | _ => false

/-- Holds exactly on writes to the storage interface. -/
def isStorageWrite : Effect → Bool
  | .s3Write _ _ => true
  | _ => false

/-- Modelled from botocore's client-side `validate_bucket_name` handler:
a bucket name passes parameter validation iff it is 1–255 characters
drawn from letters, digits, `.`, `-`, `_`.  Validation happens before any
network request is made. -/
def validBucketName (b : String) : Bool :=
  1 ≤ b.length && b.length ≤ 255 &&
    b.toList.all (fun c => c.isAlphanum || c = '.' || c = '-' || c = '_')

/-- Model of `boto3 ... client('s3').head_bucket(Bucket=b)`: botocore first runs
client-side parameter validation (no network call on failure), then the
service answers 403 for a denied bucket, 404 for a missing one, and
success otherwise.  Returns the effects performed and the outcome. -/
def head_bucket (s : S3State) (b : String) : List Effect × Except Err Unit :=
  if validBucketName b then
    ([.s3HeadBucket b],
      if b ∈ s.denied then .error (.clientError "403")
      else if b ∈ s.buckets then .ok ()
      else .error (.clientError "404"))
  else
    ([], .error .paramValidation)

/-- The message printed by cell-5's `ParamValidationError` branch. -/
def invalidConfigMsg : String :=
  "Hey! You either forgot to specify your S3 bucket or you gave your bucket an invalid name!"

/-- The message printed by cell-5's 403 branch. -/
def accessDeniedMsg (b : String) : String :=
  "Hey! You don't have permission to access the bucket, " ++ b ++ "."

/-- The message printed by cell-5's 404 branch. -/
def notFoundMsg (b : String) : String :=
  "Hey! Your bucket, " ++ b ++ ", doesn't exist!"

/-- The message printed by cell-5's `else` (success) branch. -/
def storedMsg (b p : String) : String :=
  "Training input/output will be stored in: s3://" ++ b ++ "/" ++ p

/-- Cell-5's exception handler: the `try/except/else` around
`head_bucket`.  `ParamValidationError` is caught and reported;
`ClientError` is caught and its code dispatched — `'403'` and `'404'`
are reported, any other code is re-raised (`else: raise`); any other
exception type is not caught at all and propagates; on success the
storage-location line is printed.  Returns printed lines and the
propagated exception, if any. -/
def cell5Handle (b p : String) : Except Err Unit → List Effect × Option Err
  | .ok _ => ([.printLine (storedMsg b p)], none)
  | .error .paramValidation => ([.printLine invalidConfigMsg], none)
  | .error (.clientError code) =>
      if code = "403" then ([.printLine (accessDeniedMsg b)], none)
      else if code = "404" then ([.printLine (notFoundMsg b)], none)
      else ([], some (.clientError code))
  | .error e => ([], some e)

/-- Cell-5 as a whole: probe the bucket, then handle the outcome.
Returns the effect trace and the exception that escapes the cell, if
any. -/
def cell5 (s : S3State) (b p : String) : List Effect × Option Err :=
  let probe := head_bucket s b
  let handled := cell5Handle b p probe.2
  (probe.1 ++ handled.1, handled.2)

/-- One (principal identifier, IP address) tuple (spec §3
TupleRecord). -/
structure TupleRecord where
  principalId : String
  ipAddress : String
deriving DecidableEq, Repr

/-- A TupleRecord as one row of the 2-D array handed to
`predictor.predict`. -/
def tupleRow (t : TupleRecord) : List String := [t.principalId, t.ipAddress]

/-- One serialized CSV line: the row's fields joined by commas.
Modelled from the SDK's `sagemaker.predictor.csv_serializer` acting on
one row of a 2-D array. -/
def csvSerializeRow : List String → String
  | [] => ""
  | [x] => x
  | x :: xs => x ++ "," ++ csvSerializeRow xs

/-- The serialized CSV request body: lines joined by newlines (no header
row).  Modelled from `sagemaker.predictor.csv_serializer` on a 2-D
array. -/
def csvSerializeLines : List String → String
  | [] => ""
  | [l] => l
  | l :: ls => l ++ "\n" ++ csvSerializeLines ls

/-- The SDK's `csv_serializer` applied to a batch of rows. -/
def csv_serializer (rows : List (List String)) : String :=
  csvSerializeLines (rows.map csvSerializeRow)

/-- Split a character list at every occurrence of `sep` (the separators
are consumed; `n` separators yield `n+1` pieces). -/
def splitChar (sep : Char) : List Char → List (List Char)
  | [] => [[]]
  | c :: cs =>
    if c = sep then [] :: splitChar sep cs
    else
      match splitChar sep cs with
      | [] => [[c]]
      | l :: ls => (c :: l) :: ls

/-- The lines of a request or file body: an empty body has no lines,
otherwise the body is split at newlines. -/
def bodyLines (s : String) : List String :=
  if s = "" then [] else (splitChar '\n' s.toList).map List.asString

/-- A JSON value, as handed to the caller by the SDK's
`json_deserializer` (numbers restricted to the integers the endpoint
model emits). -/
inductive Json where
  | num (n : Int)
  | str (s : String)
  | arr (elems : List Json)
  | obj (fields : List (String × Json))

/-- One anomaly score returned by the endpoint (spec §3 ScoreResult). -/
structure ScoreResult where
  dot_product : Int
deriving DecidableEq, Repr

/-- Modelled from the spec: the external IP Insights inference endpoint
is an opaque service that scores each CSV line of the request body and
returns `\x7b"predictions": [\x7b"dot_product": s_i\x7d, ...]\x7d`, one entry per
input line, in request order.  The per-line score function is the
opaque model; it is a parameter. -/
def endpointInvoke (score : String → Int) (body : String) : Json :=
  .obj [("predictions",
    .arr ((bodyLines body).map fun l => .obj [("dot_product", .num (score l))]))]

/-- Read one score record out of the deserialized JSON response. -/
def parseScore : Json → Option ScoreResult
  | .obj [("dot_product", .num n)] => some ⟨n⟩
  | _ => none

/-- Read a list of score records, failing if any element is not one. -/
def parseScores : List Json → Option (List ScoreResult)
  | [] => some []
  | j :: js =>
    match parseScore j, parseScores js with
    | some s, some ss => some (s :: ss)
    | _, _ => none

/-- Read the structured score list out of the deserialized JSON
response. -/
def parsePredictions : Json → Option (List ScoreResult)
  | .obj [("predictions", .arr elems)] => parseScores elems
  | _ => none

/-- The request serializer installed on the predictor (cell-14 installs
the SDK's `csv_serializer`). -/
inductive SerializerKind where
  | csv
deriving DecidableEq, Repr

/-- The response deserializer installed on the predictor (cell-14
installs the SDK's `json_deserializer`). -/
inductive DeserializerKind where
  | json
deriving DecidableEq, Repr

/-- The predictor object returned by `deploy`: an endpoint handle plus
the four mutable marshaling fields cell-14 assigns (all unset on a
freshly deployed predictor). -/
structure Predictor where
  endpoint : String
  content_type : Option String
  serializer : Option SerializerKind
  accept : Option String
  deserializer : Option DeserializerKind
deriving DecidableEq, Repr

/-- Cell-14: set `content_type = 'text/csv'`, `serializer =
csv_serializer`, `accept = 'application/json'`, `deserializer =
json_deserializer` on the predictor. -/
def configurePredictor (p : Predictor) : Predictor :=
  { p with
    content_type := some "text/csv"
    serializer := some SerializerKind.csv
    accept := some "application/json"
    deserializer := some DeserializerKind.json }

/-- The estimator object of cell-8 before/after
`set_hyperparameters`. -/
structure Estimator where
  image : String
  role : String
  train_instance_count : Nat
  train_instance_type : String
  output_path : String
  hyperparameters : List (String × String)
deriving DecidableEq, Repr

/-- Model of `Estimator.set_hyperparameters`: stores the given string→string
mapping on the estimator verbatim; no inspection or validation of the
values. -/
def set_hyperparameters (est : Estimator) (hp : List (String × String)) : Estimator :=
  { est with hyperparameters := hp }

/-- The six algorithm hyperparameters cell-8 sets, verbatim. -/
def cell8Hyperparameters : List (String × String) :=
  [("num_entity_vectors", "20000"),
   ("random_negative_sampling_rate", "5"),
   ("vector_dim", "128"),
   ("mini_batch_size", "1000"),
   ("epochs", "5"),
   ("learning_rate", "0.01")]

/-- The training request `Estimator.fit` submits: every field is copied
from the estimator, the input-channel map is passed through. -/
def mkTrainingRequest (est : Estimator)
    (input : List (String × String × String × String)) : TrainingRequest :=
  { image := est.image
    role := est.role
    train_instance_count := est.train_instance_count
    train_instance_type := est.train_instance_type
    output_path := est.output_path
    hyperparameters := est.hyperparameters
    input_data := input }

/-- Apply the installed request serializer to a batch of rows. -/
def applySerializer : SerializerKind → List (List String) → String
  | .csv, rows => csv_serializer rows

/-- Model of `predictor.predict(rows)`: serialize the batch with the installed
serializer, invoke the endpoint with the installed `content_type` and
`accept` headers, deserialize the JSON response into the structured
score list.  A predictor whose marshaling fields were never assigned
cannot issue the negotiated request.  `score` is the opaque model served
by the endpoint. -/
def predict (score : String → Int) (p : Predictor) (rows : List (List String)) :
    List Effect × Except Err (List ScoreResult) :=
  match p.content_type, p.serializer, p.accept, p.deserializer with
  | some ct, some ser, some acc, some des =>
    let body := applySerializer ser rows
    let result :=
      match des with
      | .json =>
        match parsePredictions (endpointInvoke score body) with
        | some rs => .ok rs
        | none => .error (.other "malformed endpoint response")
    ([.invokeEndpoint p.endpoint ct acc body], result)
  | _, _, _, _ => ([], .error (.other "predictor marshaling not configured"))

/-- Modelled from `pandas.read_csv` with default arguments: the first
line of the object is consumed as the column header; each remaining
line is split at commas into a row of fields.  `inference_data.values`
is this list of rows. -/
def pdReadCsv (lines : List String) : List (List String) :=
  (lines.drop 1).map fun l => (splitChar ',' l.toList).map List.asString

/-- Model of `os.path.join(a, b)` for the relative path components the notebook
uses. -/
def osPathJoin (a b : String) : String :=
  if a = "" then b
  else if a.toList.getLast? = some '/' then a ++ b
  else a ++ "/" ++ b

/-- Cell-7: `train_key = os.path.join(prefix, 'train', 'cloudtrail_tuples.csv')`. -/
def trainKey (p : String) : String :=
  osPathJoin (osPathJoin p "train") "cloudtrail_tuples.csv"

/-- Cell-18: `infer_key = os.path.join(prefix, 'infer', 'guardduty_tuples.csv')`. -/
def inferKey (p : String) : String :=
  osPathJoin (osPathJoin p "infer") "guardduty_tuples.csv"

/-- The S3 URI `'s3://{}/{}'.format(bucket, key)`. -/
def s3Url (b k : String) : String := "s3://" ++ b ++ "/" ++ k

/-- The external world the notebook talks to: the S3 state, the opaque
algorithm image URI `get_image_uri` resolves, the execution role, the
name and terminal state the submitted training job ends in, the name of
the endpoint `deploy` provisions, and the opaque per-line score function
the deployed model computes. -/
structure Env where
  s3 : S3State
  image : String
  role : String
  jobName : String
  trainResult : JobState
  endpointName : String
  score : String → Int

/-- Modelled from the spec: `Estimator.fit` submits the training request
and blocks until the job reaches a terminal state; `Completed` returns
the job handle, `Failed`/`Stopped` raise an error surfacing the job's
identifier. -/
def fit (env : Env) (est : Estimator)
    (input : List (String × String × String × String)) :
    List Effect × Except Err String :=
  ([.createTrainingJob (mkTrainingRequest est input)],
    match env.trainResult with
    | .Completed => .ok env.jobName
    | st => .error (.trainingFailed env.jobName st))

/-- Modelled from the spec: `Estimator.deploy` provisions an endpoint
behind the trained model and blocks until it is serving, returning a
predictor handle whose marshaling fields are unset. -/
def deploy (env : Env) : List Effect × Predictor :=
  ([.createEndpoint env.endpointName],
    ⟨env.endpointName, none, none, none, none⟩)

/-- Fetch an S3 object's lines, as `pd.read_csv('s3://{bucket}/{key}')`
does before parsing; a missing object raises a client error. -/
def s3GetObject (s : S3State) (b k : String) :
    List Effect × Except Err (List String) :=
  ([.s3Read b k],
    match s.objects.find? (fun o => o.bucket = b && o.key = k) with
    | some o => .ok o.lines
    | none => .error (.clientError "404"))

/-- Cell-8's estimator: opaque image, execution role, one
`ml.m4.xlarge` training instance, output path under the bucket, then
`set_hyperparameters` with the six string hyperparameters. -/
def cell8Estimator (env : Env) (bucket pfx : String) : Estimator :=
  set_hyperparameters
    { image := env.image
      role := env.role
      train_instance_count := 1
      train_instance_type := "ml.m4.xlarge"
      output_path := "s3://" ++ bucket ++ "/" ++ pfx ++ "/output"
      hyperparameters := [] }
    cell8Hyperparameters

/-- Cell-7's input channel map: one `train` channel, fully replicated,
CSV content type, pointing at the training tuples object. -/
def cell7InputData (bucket pfx : String) :
    List (String × String × String × String) :=
  [("train", (s3Url bucket (trainKey pfx), "FullyReplicated", "text/csv"))]

/-- The outcome of one top-to-bottom run of the notebook: the trace of
remote calls and printed lines, and either the value of the final cell
(the scores for the GuardDuty findings) or the uncaught exception that
aborted the run. -/
structure RunResult where
  trace : List Effect
  result : Except Err (List ScoreResult)

/-- One sequential top-to-bottom run of the notebook's code cells.
A caught exception (cell-5 prints and swallows parameter-validation,
403 and 404 errors) does not stop the run; an uncaught exception aborts
it at the cell that raised. -/
def runWorkflow (env : Env) (bucket pfx : String) : RunResult :=
  let c5 := cell5 env.s3 bucket pfx
  match c5.2 with
  | some err => ⟨c5.1, .error err⟩
  | none =>
    let f := fit env (cell8Estimator env bucket pfx) (cell7InputData bucket pfx)
    match f.2 with
    | .error err => ⟨c5.1 ++ f.1, .error err⟩
    | .ok jobName =>
      let d := deploy env
      let pre := c5.1 ++ f.1
        ++ [Effect.printLine ("Training job name: " ++ jobName)]
        ++ d.1
        ++ [Effect.printLine ("Endpoint name: " ++ d.2.endpoint)]
      let p := configurePredictor d.2
      let g16 := s3GetObject env.s3 bucket (trainKey pfx)
      match g16.2 with
      | .error err => ⟨pre ++ g16.1, .error err⟩
      | .ok trainLines =>
        let p16 := predict env.score p (pdReadCsv trainLines)
        match p16.2 with
        | .error err => ⟨pre ++ g16.1 ++ p16.1, .error err⟩
        | .ok _ =>
          let g18 := s3GetObject env.s3 bucket (inferKey pfx)
          match g18.2 with
          | .error err => ⟨pre ++ g16.1 ++ p16.1 ++ g18.1, .error err⟩
          | .ok inferLines =>
            let p18 := predict env.score p (pdReadCsv inferLines)
            ⟨pre ++ g16.1 ++ p16.1 ++ g18.1 ++ p18.1, p18.2⟩

/-- Holds on every effect that is not an inference request, and on an
inference request iff its headers are the negotiated
`text/csv` / `application/json` pair. -/
def invokeHeadersOk : Effect → Bool
  | .invokeEndpoint _ ct acc _ => ct == "text/csv" && acc == "application/json"
  | _ => true

/-! ### Concrete environments for the spec's scenarios -/

/-- A concrete stand-in for the opaque per-line score the deployed model
computes. -/
def demoScore (s : String) : Int := (s.length : Int)

/-- The bucket name of the spec's scenario. -/
def demoBucket : String := "sec405-tuplesbucket-ABC123"

/-- S3 state of the spec's scenario: the two CSV objects hold exactly
the rows the spec lists, and nothing else. -/
def s3Scenario : S3State :=
  { buckets := [demoBucket]
    denied := []
    objects :=
      [⟨demoBucket, "train/cloudtrail_tuples.csv",
        ["user-1,10.0.0.5", "user-2,10.0.0.9"]⟩,
       ⟨demoBucket, "infer/guardduty_tuples.csv",
        ["user-1,203.0.113.44"]⟩] }

/-- The spec's scenario environment; the training job completes. -/
def envScenario : Env :=
  { s3 := s3Scenario
    image := "ipinsights-image"
    role := "role-arn"
    jobName := "sec405-training-job"
    trainResult := .Completed
    endpointName := "sec405-endpoint"
    score := demoScore }

/-- The scenario S3 state with a column-header line ahead of the data
rows in both CSV objects. -/
def s3ScenarioHeadered : S3State :=
  { buckets := [demoBucket]
    denied := []
    objects :=
      [⟨demoBucket, "train/cloudtrail_tuples.csv",
        ["principal_id,ip_address", "user-1,10.0.0.5", "user-2,10.0.0.9"]⟩,
       ⟨demoBucket, "infer/guardduty_tuples.csv",
        ["principal_id,ip_address", "user-1,203.0.113.44"]⟩] }

/-- The scenario environment over the headered objects. -/
def envScenarioHeadered : Env :=
  { envScenario with s3 := s3ScenarioHeadered }

/-- An environment whose S3 service holds no buckets at all. -/
def envNoBuckets : Env :=
  { envScenario with s3 := { buckets := [], denied := [], objects := [] } }

/-- The scenario environment whose training job ends `Failed`. -/
def envTrainFailed : Env :=
  { envScenario with trainResult := .Failed }

/-- The two training tuples of the spec's scenario. -/
def witnessRecords : List TupleRecord :=
  [⟨"user-1", "10.0.0.5"⟩, ⟨"user-2", "10.0.0.9"⟩]

/-- A freshly deployed predictor handle for the scenario endpoint. -/
def witnessPredictor : Predictor := ⟨"sec405-endpoint", none, none, none, none⟩

/-- Holds exactly on console output. -/
def isPrint : Effect → Bool
  | .printLine _ => true
  | _ => false

/-! ### Helper lemmas -/

/-- With an invalid name, cell-5 prints the invalid-configuration line,
performs no network call, and raises nothing. -/
lemma cell5_invalid (s : S3State) (b p : String) (h : validBucketName b = false) :
    cell5 s b p = ([.printLine invalidConfigMsg], none) := by
  simp [cell5, head_bucket, cell5Handle, h]

/-- With a denied bucket, cell-5 probes, prints the access-denied line,
and raises nothing. -/
lemma cell5_denied (s : S3State) (b p : String) (hv : validBucketName b = true)
    (hd : b ∈ s.denied) :
    cell5 s b p = ([.s3HeadBucket b, .printLine (accessDeniedMsg b)], none) := by
  simp [cell5, head_bucket, cell5Handle, hv, hd]

/-- With a missing bucket, cell-5 probes, prints the not-found line, and
raises nothing. -/
lemma cell5_missing (s : S3State) (b p : String) (hv : validBucketName b = true)
    (hd : b ∉ s.denied) (he : b ∉ s.buckets) :
    cell5 s b p = ([.s3HeadBucket b, .printLine (notFoundMsg b)], none) := by
  simp [cell5, head_bucket, cell5Handle, hv, hd, he]

/-- With an accessible bucket, cell-5 probes, prints the storage
location, and raises nothing. -/
lemma cell5_ok (s : S3State) (b p : String) (hv : validBucketName b = true)
    (hd : b ∉ s.denied) (he : b ∈ s.buckets) :
    cell5 s b p = ([.s3HeadBucket b, .printLine (storedMsg b p)], none) := by
  simp [cell5, head_bucket, cell5Handle, hv, hd, he]

/-- Every effect cell-5 performs is the probe or a printed line. -/
lemma cell5_effects (s : S3State) (b p : String) :
    ∀ e ∈ (cell5 s b p).1, isProbeOrPrint e = true := by
  intro e he
  by_cases hv : validBucketName b
  · by_cases hd : b ∈ s.denied
    · rw [cell5_denied s b p hv hd] at he
      simp at he
      rcases he with rfl | rfl <;> rfl
    · by_cases hb : b ∈ s.buckets
      · rw [cell5_ok s b p hv hd hb] at he
        simp at he
        rcases he with rfl | rfl <;> rfl
      · rw [cell5_missing s b p hv hd hb] at he
        simp at he
        rcases he with rfl | rfl <;> rfl
  · rw [cell5_invalid s b p (by simpa using hv)] at he
    simp at he
    subst he
    rfl

/-- Cell-5 swallows every failure its model can produce: nothing escapes
the cell. -/
lemma cell5_none (s : S3State) (b p : String) : (cell5 s b p).2 = none := by
  by_cases hv : validBucketName b
  · by_cases hd : b ∈ s.denied
    · rw [cell5_denied s b p hv hd]
    · by_cases hb : b ∈ s.buckets
      · rw [cell5_ok s b p hv hd hb]
      · rw [cell5_missing s b p hv hd hb]
  · rw [cell5_invalid s b p (by simpa using hv)]

/-- A probe or print is neither a storage write, a training call, a
deployment call, nor an inference request with wrong headers. -/
lemma probe_or_print_spec (e : Effect) (h : isProbeOrPrint e = true) :
    isStorageWrite e = false ∧ isTrainingCall e = false ∧
      isDeployCall e = false ∧ invokeHeadersOk e = true := by
  cases e <;> simp_all [isProbeOrPrint, isStorageWrite, isTrainingCall,
    isDeployCall, invokeHeadersOk]

/-- Whatever the environment, every effect of cell-5 appears in the
run's trace: the checker's report is part of every run. -/
lemma runWorkflow_mem_cell5 (env : Env) (b pfx : String) :
    ∀ e ∈ (cell5 env.s3 b pfx).1, e ∈ (runWorkflow env b pfx).trace := by
  intro e he
  simp only [runWorkflow, cell5_none]
  cases henv : env.trainResult
  case Failed | Stopped => simp [fit, henv, List.mem_append, he]
  case Completed =>
    rcases hg16 : (s3GetObject env.s3 b (trainKey pfx)).2 with e16 | lines16
    · simp [fit, henv, hg16, List.mem_append, he]
    · rcases hp16 : (predict env.score
          (configurePredictor (deploy env).2) (pdReadCsv lines16)).2 with ep | rs
      · simp [fit, henv, hg16, hp16, List.mem_append, he]
      · rcases hg18 : (s3GetObject env.s3 b (inferKey pfx)).2 with e18 | lines18
        · simp [fit, henv, hg16, hp16, hg18, List.mem_append, he]
        · simp [fit, henv, hg16, hp16, hg18, List.mem_append, he]

/-- Whatever the environment, the run submits a training request: the
checker never stops the sequential run before `fit`. -/
lemma runWorkflow_training_submitted (env : Env) (b pfx : String) :
    ((runWorkflow env b pfx).trace.any isTrainingCall) = true := by
  simp only [runWorkflow, cell5_none]
  cases henv : env.trainResult
  case Failed | Stopped => simp [fit, henv, List.any_append, isTrainingCall]
  case Completed =>
    rcases hg16 : (s3GetObject env.s3 b (trainKey pfx)).2 with e16 | lines16
    · simp [fit, henv, hg16, List.any_append, isTrainingCall]
    · rcases hp16 : (predict env.score
          (configurePredictor (deploy env).2) (pdReadCsv lines16)).2 with ep | rs
      · simp [fit, henv, hg16, hp16, List.any_append, isTrainingCall]
      · rcases hg18 : (s3GetObject env.s3 b (inferKey pfx)).2 with e18 | lines18
        · simp [fit, henv, hg16, hp16, hg18, List.any_append, isTrainingCall]
        · simp [fit, henv, hg16, hp16, hg18, List.any_append, isTrainingCall]

/-- When the training job does not complete, the run is exactly:
cell-5's effects, the training submission, and an abort that carries the
job's identifier. -/
lemma runWorkflow_train_failed (env : Env) (b pfx : String)
    (h : env.trainResult ≠ .Completed) :
    runWorkflow env b pfx =
      ⟨(cell5 env.s3 b pfx).1
        ++ [Effect.createTrainingJob
              (mkTrainingRequest (cell8Estimator env b pfx) (cell7InputData b pfx))],
       .error (.trainingFailed env.jobName env.trainResult)⟩ := by
  simp only [runWorkflow, cell5_none]
  cases henv : env.trainResult
  case Completed => exact absurd henv h
  case Failed | Stopped => simp [fit, henv]

/-- A separator-free character list splits into itself alone. -/
lemma splitChar_no_sep (sep : Char) :
    ∀ l : List Char, (∀ c ∈ l, c ≠ sep) → splitChar sep l = [l] := by
  intro l h
  induction l with
  | nil => rfl
  | cons c cs ih =>
    have hc : c ≠ sep := h c (by simp)
    have ih' := ih fun x hx => h x (by simp [hx])
    simp [splitChar, hc, ih']

/-- Splitting after a separator-free first piece peels it off. -/
lemma splitChar_append (sep : Char) :
    ∀ l r : List Char, (∀ c ∈ l, c ≠ sep) →
      splitChar sep (l ++ sep :: r) = l :: splitChar sep r := by
  intro l r h
  induction l with
  | nil => simp [splitChar]
  | cons c cs ih =>
    have hc : c ≠ sep := h c (by simp)
    have ih' := ih fun x hx => h x (by simp [hx])
    simp [splitChar, hc, ih']

/-- A serialized body starting with a nonempty line is nonempty. -/
lemma csvSerializeLines_ne_empty (l : String) (ls : List String) (h : l ≠ "") :
    csvSerializeLines (l :: ls) ≠ "" := by
  cases ls with
  | nil => exact h
  | cons l' ls' =>
    intro hc
    have := congrArg String.data hc
    simp [csvSerializeLines, String.data_append] at this

/-- Parsing the request body back into lines inverts serialization, for
lines that are nonempty and newline-free. -/
lemma bodyLines_csvSerializeLines :
    ∀ ls : List String, (∀ l ∈ ls, l ≠ "" ∧ ∀ c ∈ l.toList, c ≠ '\n') →
      bodyLines (csvSerializeLines ls) = ls := by
  intro ls h
  induction ls with
  | nil => rfl
  | cons l tl ih =>
    obtain ⟨hne, hnl⟩ := h l (by simp)
    cases tl with
    | nil =>
      simp only [csvSerializeLines, bodyLines, if_neg hne]
      rw [splitChar_no_sep '\n' l.toList hnl]
      rw [List.map_cons, List.map_nil]
      rw [String.asString_toList l]
    | cons l' tl' =>
      obtain ⟨hne', _⟩ := h l' (by simp)
      have ihtl := ih fun x hx => h x (by simp [hx])
      have hrest : csvSerializeLines (l' :: tl') ≠ "" :=
        csvSerializeLines_ne_empty l' tl' hne'
      have hwhole : (l ++ "\n" ++ csvSerializeLines (l' :: tl')) ≠ "" := by
        intro hc
        have := congrArg String.data hc
        simp [String.data_append] at this
      simp only [csvSerializeLines, bodyLines, if_neg hwhole]
      have hdata : (l ++ "\n" ++ csvSerializeLines (l' :: tl')).toList
          = l.toList ++ '\n' :: (csvSerializeLines (l' :: tl')).toList := by
        show (l ++ "\n" ++ csvSerializeLines (l' :: tl')).data
          = l.data ++ '\n' :: (csvSerializeLines (l' :: tl')).data
        simp [String.data_append]
      rw [hdata, splitChar_append '\n' l.toList _ hnl]
      rw [List.map_cons]
      rw [show l.toList.asString = l from String.asString_toList l]
      simp only [bodyLines, if_neg hrest] at ihtl
      rw [ihtl]

/-- Reading back the endpoint's per-line score objects yields exactly
one ScoreResult per line, in order. -/
lemma parseScores_map (score : String → Int) :
    ∀ ls : List String,
      parseScores (ls.map fun l => Json.obj [("dot_product", Json.num (score l))])
        = some (ls.map fun l => ScoreResult.mk (score l)) := by
  intro ls
  induction ls with
  | nil => rfl
  | cons l tl ih => simp [parseScores, parseScore, ih]

/-- A two-field row serializes to the comma-joined pair. -/
lemma csvSerializeRow_pair (a b : String) : csvSerializeRow [a, b] = a ++ "," ++ b := rfl

/-- The trace of a `predict` call on a cell-14-configured predictor is a
single endpoint invocation with the negotiated headers and the CSV
body. -/
lemma predict_trace_configured (score : String → Int) (p0 : Predictor)
    (rows : List (List String)) :
    (predict score (configurePredictor p0) rows).1
      = [Effect.invokeEndpoint p0.endpoint "text/csv" "application/json"
          (csv_serializer rows)] := by
  simp [predict, configurePredictor, applySerializer]

/-- The deployment call of `deploy`. -/
lemma deploy_fst (env : Env) :
    (deploy env).1 = [Effect.createEndpoint env.endpointName] := rfl

/-- The endpoint handle of the deployed predictor. -/
lemma deploy_endpoint (env : Env) : (deploy env).2.endpoint = env.endpointName := rfl

/-- The storage-read effect of an object fetch. -/
lemma s3GetObject_fst (s : S3State) (b k : String) :
    (s3GetObject s b k).1 = [Effect.s3Read b k] := rfl

/-- Every inference request in any run carries the negotiated
`text/csv` / `application/json` headers. -/
lemma runWorkflow_invokeHeaders (env : Env) (b pfx : String) :
    ((runWorkflow env b pfx).trace.all invokeHeadersOk) = true := by
  have hc5 : ((cell5 env.s3 b pfx).1.all invokeHeadersOk) = true :=
    List.all_eq_true.mpr fun e he =>
      (probe_or_print_spec e (cell5_effects _ _ _ e he)).2.2.2
  simp only [runWorkflow, cell5_none]
  cases henv : env.trainResult
  case Failed | Stopped =>
    simp [fit, henv, List.all_append, hc5, invokeHeadersOk]
  case Completed =>
    rcases hg16 : (s3GetObject env.s3 b (trainKey pfx)).2 with e16 | lines16
    · simp [fit, henv, hg16, s3GetObject_fst, deploy_fst, deploy_endpoint,
        List.all_append, hc5, invokeHeadersOk]
    · rcases hp16 : (predict env.score
          (configurePredictor (deploy env).2) (pdReadCsv lines16)).2 with ep | rs
      · simp [fit, henv, hg16, hp16, s3GetObject_fst, deploy_fst, deploy_endpoint,
          predict_trace_configured, List.all_append, hc5, invokeHeadersOk]
      · rcases hg18 : (s3GetObject env.s3 b (inferKey pfx)).2 with e18 | lines18
        · simp [fit, henv, hg16, hp16, hg18, s3GetObject_fst, deploy_fst,
            deploy_endpoint, predict_trace_configured, List.all_append, hc5,
            invokeHeadersOk]
        · simp [fit, henv, hg16, hp16, hg18, s3GetObject_fst, deploy_fst,
            deploy_endpoint, predict_trace_configured, List.all_append, hc5,
            invokeHeadersOk]

/-! ### Claim theorems -/

/-- C1, counterexample: in an S3 state where the configured bucket does
not exist, cell-5 does print the not-found report, yet the sequential
run still submits a training request afterwards — the claim's "the
workflow halts at that stage, so no training request is ever submitted
afterwards" is false of the code, whose handler swallows the 404. -/
theorem notFound_halts_counterexample :
    demoBucket ∉ envNoBuckets.s3.buckets ∧
    Effect.printLine (notFoundMsg demoBucket)
      ∈ (runWorkflow envNoBuckets demoBucket "").trace ∧
    ((runWorkflow envNoBuckets demoBucket "").trace.any isTrainingCall) = true := by
  decide

/-- C1, amended: for every configured container name that does not
exist, the precondition checker reports NotFound (prints the
bucket-doesn't-exist line), but it raises nothing, so the sequential
workflow does not halt: a training request is still submitted
afterwards. -/
theorem notFound_reported_training_still_submitted (env : Env) (b pfx : String)
    (hv : validBucketName b = true) (hd : b ∉ env.s3.denied)
    (he : b ∉ env.s3.buckets) :
    Effect.printLine (notFoundMsg b) ∈ (runWorkflow env b pfx).trace ∧
    ((runWorkflow env b pfx).trace.any isTrainingCall) = true := by
  constructor
  · apply runWorkflow_mem_cell5
    rw [cell5_missing env.s3 b pfx hv hd he]
    simp
  · exact runWorkflow_training_submitted env b pfx

/-- Witness for the amended C1 at the scenario bucket name over an
empty S3 service. -/
theorem notFound_reported_training_still_submitted_witness :
    validBucketName demoBucket = true ∧
    demoBucket ∉ envNoBuckets.s3.denied ∧
    demoBucket ∉ envNoBuckets.s3.buckets ∧
    ((runWorkflow envNoBuckets demoBucket "").trace.any isTrainingCall) = true :=
  ⟨by decide, by decide, by decide,
    (notFound_reported_training_still_submitted envNoBuckets demoBucket ""
      (by decide) (by decide) (by decide)).2⟩

/-- C2, counterexample: with the empty container name, cell-5 does
report the invalid configuration without any storage call, but the run
does not fail fast — it goes on to call both the training and the
deployment interfaces. -/
theorem failFast_counterexample :
    cell5 envNoBuckets.s3 "" "" = ([Effect.printLine invalidConfigMsg], none) ∧
    ((runWorkflow envNoBuckets "" "").trace.any isTrainingCall) = true ∧
    ((runWorkflow envNoBuckets "" "").trace.any isDeployCall) = true := by
  decide

/-- C2, amended: for an empty (or malformed) container name, the
precondition checker reports InvalidConfiguration and itself performs
no storage call (client-side validation fails before any request), but
the workflow does not fail fast: a training request is still submitted
afterwards. -/
theorem invalidConfig_reported_training_still_submitted (env : Env)
    (b pfx : String) (h : validBucketName b = false) :
    cell5 env.s3 b pfx = ([Effect.printLine invalidConfigMsg], none) ∧
    ((runWorkflow env b pfx).trace.any isTrainingCall) = true :=
  ⟨cell5_invalid env.s3 b pfx h, runWorkflow_training_submitted env b pfx⟩

/-- Witness for the amended C2 at the empty bucket name. -/
theorem invalidConfig_reported_training_still_submitted_witness :
    validBucketName "" = false ∧
    cell5 envNoBuckets.s3 "" "" = ([Effect.printLine invalidConfigMsg], none) :=
  ⟨by decide,
    (invalidConfig_reported_training_still_submitted envNoBuckets "" "" (by decide)).1⟩

/-- C3, counterexample: in the spec's scenario (the infer object's only
line is the data row `user-1,203.0.113.44`), the full run returns zero
ScoreResults, not one: `pd.read_csv` consumes that line as the column
header. -/
theorem one_row_scenario_counterexample :
    Except.map List.length (runWorkflow envScenario demoBucket "").result
      = Except.ok 0 := by
  rfl

/-- C3, amended: in the spec's scenario with the infer object holding a
column-header line followed by the row `user-1,203.0.113.44`,
submitting training, deploying and predicting on the infer file returns
exactly one ScoreResult. -/
theorem one_row_scenario_with_header :
    Except.map List.length (runWorkflow envScenarioHeadered demoBucket "").result
      = Except.ok 1 := by
  rfl

/-- C4: the storage precondition handler classifies every failure as
the spec's taxonomy demands — parameter validation is reported as
InvalidConfiguration, client error 403 as AccessDenied, client error
404 as NotFound, and any other error (an unrecognized client-error
code, or any other exception) is re-raised unmodified, never
swallowed. -/
theorem precondition_error_taxonomy (b p : String) :
    cell5Handle b p (.error .paramValidation)
      = ([.printLine invalidConfigMsg], none) ∧
    cell5Handle b p (.error (.clientError "403"))
      = ([.printLine (accessDeniedMsg b)], none) ∧
    cell5Handle b p (.error (.clientError "404"))
      = ([.printLine (notFoundMsg b)], none) ∧
    (∀ code, code ≠ "403" → code ≠ "404" →
      cell5Handle b p (.error (.clientError code))
        = ([], some (.clientError code))) ∧
    (∀ jn st, cell5Handle b p (.error (.trainingFailed jn st))
      = ([], some (.trainingFailed jn st))) ∧
    (∀ m, cell5Handle b p (.error (.other m)) = ([], some (.other m))) := by
  refine ⟨rfl, by simp [cell5Handle], by simp [cell5Handle], ?_,
    fun jn st => rfl, fun m => rfl⟩
  intro code h3 h4
  simp [cell5Handle, h3, h4]

/-- Witness for C4 at an unrecognized client-error code. -/
theorem precondition_error_taxonomy_witness :
    ("500" : String) ≠ "403" ∧ ("500" : String) ≠ "404" ∧
    cell5Handle demoBucket "" (.error (.clientError "500"))
      = ([], some (.clientError "500")) :=
  ⟨by decide, by decide,
    (precondition_error_taxonomy demoBucket "").2.2.2.1 "500" (by decide) (by decide)⟩

/-- C6: `set_hyperparameters` stores any given string-keyed mapping
verbatim, `fit` copies it into the training request unchanged (no
client-side validation of numeric ranges anywhere), and the notebook's
mapping consists of exactly the six algorithm keys. -/
theorem hyperparameters_passthrough :
    (∀ est hp, (set_hyperparameters est hp).hyperparameters = hp) ∧
    (∀ est input, (mkTrainingRequest est input).hyperparameters
      = est.hyperparameters) ∧
    (∀ env b pfx, (cell8Estimator env b pfx).hyperparameters
      = cell8Hyperparameters) ∧
    cell8Hyperparameters.map Prod.fst =
      ["num_entity_vectors", "random_negative_sampling_rate", "vector_dim",
       "mini_batch_size", "epochs", "learning_rate"] ∧
    cell8Hyperparameters.length = 6 :=
  ⟨fun _ _ => rfl, fun _ _ => rfl, fun _ _ _ => rfl, rfl, rfl⟩

/-- C8: whenever the training job ends `Failed` or `Stopped`, the
deployment interface is never invoked, and the run aborts with an error
that surfaces the job's identifier. -/
theorem failed_training_blocks_deploy (env : Env) (b pfx : String)
    (h : env.trainResult = .Failed ∨ env.trainResult = .Stopped) :
    ((runWorkflow env b pfx).trace.all fun e => !(isDeployCall e)) = true ∧
    (runWorkflow env b pfx).result
      = .error (.trainingFailed env.jobName env.trainResult) := by
  have hne : env.trainResult ≠ .Completed := by
    rcases h with h | h <;> simp [h]
  rw [runWorkflow_train_failed env b pfx hne]
  refine ⟨?_, rfl⟩
  rw [List.all_append]
  refine (Bool.and_eq_true _ _).mpr ⟨?_, rfl⟩
  refine List.all_eq_true.mpr ?_
  intro e he
  simp [(probe_or_print_spec e (cell5_effects _ _ _ e he)).2.2.1]

/-- Witness for C8 at the scenario environment whose job fails. -/
theorem failed_training_blocks_deploy_witness :
    (envTrainFailed.trainResult = .Failed ∨
      envTrainFailed.trainResult = .Stopped) ∧
    (runWorkflow envTrainFailed demoBucket "").result
      = .error (.trainingFailed envTrainFailed.jobName envTrainFailed.trainResult) :=
  ⟨Or.inl rfl,
    (failed_training_blocks_deploy envTrainFailed demoBucket "" (Or.inl rfl)).2⟩

/-- C9: on every input, the storage precondition check performs only
the lightweight probe and console output — no storage write, no
training call, no deployment call, so all external state is left
unchanged — and it emits exactly one human-readable status line. -/
theorem checker_probe_only (s : S3State) (b p : String) :
    ((cell5 s b p).1.all isProbeOrPrint) = true ∧
    ((cell5 s b p).1.all
      fun e => !(isStorageWrite e || isTrainingCall e || isDeployCall e)) = true ∧
    ((cell5 s b p).1.countP isPrint) = 1 := by
  refine ⟨List.all_eq_true.mpr (cell5_effects s b p), ?_, ?_⟩
  · refine List.all_eq_true.mpr ?_
    intro e he
    obtain ⟨h1, h2, h3, _⟩ := probe_or_print_spec e (cell5_effects s b p e he)
    simp [h1, h2, h3]
  · by_cases hv : validBucketName b
    · by_cases hd : b ∈ s.denied
      · rw [cell5_denied s b p hv hd]; rfl
      · by_cases hb : b ∈ s.buckets
        · rw [cell5_ok s b p hv hd hb]; rfl
        · rw [cell5_missing s b p hv hd hb]; rfl
    · rw [cell5_invalid s b p (by simpa using hv)]; rfl

/-- C10: loading a CSV object for inference consumes the first line as
the column header: an object of N lines yields a prediction batch of
N−1 rows, and a one-line object yields an empty batch. -/
theorem read_csv_consumes_header (lines : List String) (h : lines ≠ []) :
    (pdReadCsv lines).length = lines.length - 1 ∧
    lines.length = (pdReadCsv lines).length + 1 ∧
    (∀ l, pdReadCsv [l] = []) := by
  have hpos : 0 < lines.length := List.length_pos.mpr h
  refine ⟨by simp [pdReadCsv], ?_, fun _ => rfl⟩
  simp only [pdReadCsv, List.length_map, List.length_drop]
  omega

/-- Witness for C10 at a two-line object. -/
theorem read_csv_consumes_header_witness :
    (["principal_id,ip_address", "user-1,10.0.0.5"] : List String) ≠ [] ∧
    (pdReadCsv ["principal_id,ip_address", "user-1,10.0.0.5"]).length
      = (["principal_id,ip_address", "user-1,10.0.0.5"] : List String).length - 1 :=
  ⟨by decide, (read_csv_consumes_header _ (by decide)).1⟩

/-- C5: serializing any N TupleRecord rows to the CSV request format,
issuing one predict call (a single endpoint invocation), and
deserializing the JSON response yields exactly N ScoreResult entries,
with score i corresponding to input row i — no reordering, no
deduplication.  The newline-freedom hypothesis says the fields are
well-formed CSV values. -/
theorem predict_roundtrip_ordered (score : String → Int) (p0 : Predictor)
    (records : List TupleRecord)
    (h : ∀ t ∈ records, (∀ c ∈ t.principalId.toList, c ≠ '\n') ∧
      (∀ c ∈ t.ipAddress.toList, c ≠ '\n')) :
    predict score (configurePredictor p0) (records.map tupleRow)
      = ([Effect.invokeEndpoint p0.endpoint "text/csv" "application/json"
           (csv_serializer (records.map tupleRow))],
         Except.ok (records.map
           fun t => ScoreResult.mk (score (csvSerializeRow (tupleRow t))))) ∧
    (records.map
      fun t => ScoreResult.mk (score (csvSerializeRow (tupleRow t)))).length
      = records.length := by
  have hlines : ∀ l ∈ (records.map tupleRow).map csvSerializeRow,
      l ≠ "" ∧ ∀ c ∈ l.toList, c ≠ '\n' := by
    intro l hl
    rw [List.map_map] at hl
    obtain ⟨t, ht, rfl⟩ := List.mem_map.mp hl
    obtain ⟨h1, h2⟩ := h t ht
    rw [Function.comp_apply, tupleRow, csvSerializeRow_pair]
    constructor
    · intro hc
      have := congrArg String.data hc
      simp [String.data_append] at this
    · intro c hc
      have hc' : c ∈ t.principalId.data ++ ',' :: t.ipAddress.data := by
        have hdata : (t.principalId ++ "," ++ t.ipAddress).data
            = t.principalId.data ++ ',' :: t.ipAddress.data := by
          simp [String.data_append]
        rw [show (t.principalId ++ "," ++ t.ipAddress).toList
            = (t.principalId ++ "," ++ t.ipAddress).data from rfl, hdata] at hc
        exact hc
      rcases List.mem_append.mp hc' with hmem | hmem
      · exact h1 c hmem
      · rw [List.mem_cons] at hmem
        rcases hmem with rfl | hmem
        · decide
        · exact h2 c hmem
  have hbody : bodyLines (csv_serializer (records.map tupleRow))
      = (records.map tupleRow).map csvSerializeRow :=
    bodyLines_csvSerializeLines _ hlines
  refine ⟨?_, by simp⟩
  have hparse : parsePredictions
      (endpointInvoke score (csv_serializer (records.map tupleRow)))
      = some (records.map
          fun t => ScoreResult.mk (score (csvSerializeRow (tupleRow t)))) := by
    rw [endpointInvoke, parsePredictions, hbody, parseScores_map]
    simp [List.map_map]
  simp only [predict, configurePredictor, applySerializer]
  rw [hparse]

/-- Witness for C5 at the spec's two training tuples. -/
theorem predict_roundtrip_ordered_witness :
    predict demoScore (configurePredictor witnessPredictor)
        (witnessRecords.map tupleRow)
      = ([Effect.invokeEndpoint witnessPredictor.endpoint "text/csv"
           "application/json" (csv_serializer (witnessRecords.map tupleRow))],
         Except.ok (witnessRecords.map
           fun t => ScoreResult.mk (demoScore (csvSerializeRow (tupleRow t))))) :=
  (predict_roundtrip_ordered demoScore witnessPredictor witnessRecords (by decide)).1

/-- C7: cell-14 sets the four marshaling fields to the negotiated pair,
a predict call on the configured predictor issues its request with
content type `text/csv` and a CSV body and accept `application/json`
(the response being read back from JSON), and every inference request
of every run carries exactly those headers. -/
theorem inference_marshaling_headers (p0 : Predictor) (score : String → Int)
    (rows : List (List String)) (env : Env) (b pfx : String) :
    (configurePredictor p0).content_type = some "text/csv" ∧
    (configurePredictor p0).serializer = some SerializerKind.csv ∧
    (configurePredictor p0).accept = some "application/json" ∧
    (configurePredictor p0).deserializer = some DeserializerKind.json ∧
    (predict score (configurePredictor p0) rows).1
      = [Effect.invokeEndpoint p0.endpoint "text/csv" "application/json"
          (csv_serializer rows)] ∧
    ((runWorkflow env b pfx).trace.all invokeHeadersOk) = true :=
  ⟨rfl, rfl, rfl, rfl, predict_trace_configured score p0 rows,
    runWorkflow_invokeHeaders env b pfx⟩

end SEC405
